import Mathlib

/-!
Shallow embedding of the TalentScout hiring-assistant application
(`src/app.py`): keyword validators, the two LLM-gateway wrapper
functions, and the session state machine driven by form submissions
and chat inputs.  Remote chat-completion outcomes are supplied by an
environment oracle; the functions record how many network operations
they attempt.
-/

/-- Python's `needle in hay` on lists of characters:
`pyInChars n h = true` iff `n` occurs contiguously inside `h`. -/
def pyInChars (needle : List Char) : List Char → Bool
  | [] => needle.isEmpty
  | c :: rest => needle.isPrefixOf (c :: rest) || pyInChars needle rest

/-- Python's substring test `needle in hay` on strings. -/
def pyIn (needle hay : String) : Bool :=
  pyInChars needle.toList hay.toList

/-- Python's `str.lower()`: lowercase character by character. -/
def pyLower (s : String) : String :=
  ⟨s.data.map Char.toLower⟩

/-- Python's `str.endswith(suffix)`. -/
def pyEndsWith (s suffix : String) : Bool :=
  suffix.data.reverse.isPrefixOf s.data.reverse

/-- Python's `str.strip()`: drop whitespace from both ends. -/
def pyStrip (s : String) : String :=
  ⟨((s.data.dropWhile Char.isWhitespace).reverse.dropWhile
      Char.isWhitespace).reverse⟩

/-- The `END_KEYWORDS` list from `app.py`. -/
def END_KEYWORDS : List String :=
  ["bye", "goodbye", "quit", "exit", "stop", "thank you", "thanks"]

/-- The `KNOWN_TECH_KEYWORDS` list from `app.py`. -/
def KNOWN_TECH_KEYWORDS : List String :=
  ["python", "java", "javascript", "typescript", "react", "angular", "vue",
   "node", "django", "flask", "spring", "flutter", "kotlin", "swift",
   "html", "css", "tailwind", "bootstrap", "sql", "mysql", "postgres",
   "mongodb", "redis", "nlp", "computer vision", "cv", "pytorch",
   "tensorflow", "sklearn", "scikit", "docker", "kubernetes", "aws",
   "azure", "gcp", "linux", "bash", "git"]

/-- The `OUT_OF_SCOPE_KEYWORDS` list from `app.py`. -/
def OUT_OF_SCOPE_KEYWORDS : List String :=
  ["story", "joke", "poem", "song", "lyrics", "weather",
   "news", "movie", "games", "time pass"]

/-- The `is_end_keyword` check from `app.py`: lowercase the text, then
check whether any end keyword occurs as a substring. -/
def is_end_keyword (text : String) : Bool :=
  END_KEYWORDS.any (fun k => pyIn k (pyLower text))

/-- The `looks_like_tech_stack` check from `app.py`. -/
def looks_like_tech_stack (text : String) : Bool :=
  KNOWN_TECH_KEYWORDS.any (fun kw => pyIn kw (pyLower text))

/-- A chat-completion message (`{"role": ..., "content": ...}`). -/
structure ChatMessage where
  role : String
  content : String
deriving DecidableEq, Repr

/-- The outbound request `client.chat.completions.create(...)` is given. -/
structure ChatRequest where
  model : String
  messages : List ChatMessage
  temperature : Rat
deriving DecidableEq

/-- The environment: whether a Groq client is configured
(`client = None` in the source when no API key is present), and the
oracle for remote outcomes — `.ok text` for a successful completion,
`.error name` when the call raises an exception named `name`. -/
structure Env where
  hasClient : Bool
  respond : ChatRequest → Except String String

/-- The `_generic_fallback_markdown` string from `app.py` (after `.strip()`). -/
def _generic_fallback_markdown : String :=
  "### General\n\n" ++
  "1. Tell me about a recent project you worked on and what your role was.\n" ++
  "2. How do you usually debug and fix tricky issues in your code?\n" ++
  "3. How do you keep yourself updated with new tools, frameworks, or libraries?\n" ++
  "4. Describe a situation where you had to learn a new technology quickly.\n\n" ++
  "**Mini Assignment:**  \n" ++
  "Pick one of your past projects and refactor it to improve code readability and structure.  \n" ++
  "Write down what you improved and why."

/-- The system prompt of `generate_technical_questions_markdown`
(after `.strip()`). -/
def generationSystemPrompt : String :=
  "You are an experienced technical interviewer for software roles.\n\n" ++
  "The candidate will give you a TECH STACK string (comma-separated or space-separated),\n" ++
  "for example: \"Python, Flutter, React, PostgreSQL\".\n\n" ++
  "Your task:\n\n" ++
  "- Extract the distinct technologies from the string.\n" ++
  "- For EACH technology, create a section in this exact format:\n\n" ++
  "### <Technology Name>\n" ++
  "1. Question 1 (short, practical, and specific to this technology)\n" ++
  "2. Question 2\n" ++
  "3. Question 3\n\n" ++
  "**Mini Assignment:** One small hands-on task that uses ONLY this technology.\n\n" ++
  "RULES:\n" ++
  "- Every technology MUST have its OWN section.\n" ++
  "- Questions MUST be about that technology.\n" ++
  "- Respond ONLY in markdown as described. No intro, no summary, no extra text."

/-- The request built by `generate_technical_questions_markdown`. -/
def generationRequest (tech_stack : String) : ChatRequest where
  model := "llama-3.1-8b-instant"
  messages :=
    [⟨"system", generationSystemPrompt⟩,
     ⟨"user", "Candidate tech stack: " ++ tech_stack⟩]
  temperature := (3 : Rat) / 10

/-- The `generate_technical_questions_markdown` helper from `app.py`. Returns the
markdown string together with the number of network operations
attempted.  With no client it falls back immediately; otherwise the
remote text is stripped, and if it lacks a `###` marker (or the call
raised) the generic fallback is returned instead. -/
def generate_technical_questions_markdown (env : Env) (tech_stack : String) :
    String × Nat :=
  if env.hasClient = false then
    (_generic_fallback_markdown, 0)
  else
    match env.respond (generationRequest tech_stack) with
    | .error _ => (_generic_fallback_markdown, 1)
    | .ok text =>
      let content := pyStrip text
      if pyIn "###" content = false then
        (_generic_fallback_markdown, 1)
      else
        (content, 1)

/-- The no-client apology of `answer_followup`. -/
def followupNoClientReply : String :=
  "I can’t call the AI model right now, but you can still use the questions above " ++
  "to practice on your own. 😊"

/-- The system prompt of `answer_followup` (after `.strip()`). -/
def followupSystemPrompt : String :=
  "You are an interview preparation assistant.\n\n" ++
  "You are chatting with a candidate AFTER you have already generated a set of\n" ++
  "practice questions and mini-assignments for them.\n\n" ++
  "Your job now:\n\n" ++
  "- Answer their follow-up questions.\n" ++
  "- Stay strictly focused on interview preparation, career advice, and their tech stack.\n" ++
  "- You can explain concepts, give tips, or suggest how to approach the questions above.\n" ++
  "- Be encouraging, concise, and practical.\n\n" ++
  "IMPORTANT:\n" ++
  "- Do NOT generate a brand new long list of questions.\n" ++
  "- Do NOT talk about anything unrelated to interviews or tech career."

/-- The candidate profile committed by a successful form submission
(the dict stored in `st.session_state.candidate`). -/
structure CandidateProfile where
  full_name : String
  email : String
  phone : String
  years_experience : Rat
  desired_position : String
  location : String
  tech_stack : String
deriving DecidableEq, Repr

/-- The session state kept in `st.session_state`.  The empty dict `{}`
used for an unset candidate is modelled as `none`. -/
structure SessionState where
  view : String
  stage : String
  history_messages : List ChatMessage
  chat_messages : List ChatMessage
  candidate : Option CandidateProfile
  latest_questions : String
  show_contact : Bool
deriving DecidableEq, Repr

/-- The initial session state created on first render. -/
def initState : SessionState where
  view := "intro"
  stage := "form"
  history_messages := []
  chat_messages := []
  candidate := none
  latest_questions := ""
  show_contact := false

/-- The `user_context` block composed by `answer_followup` from the
stored tech stack, the stored question set and the new input. -/
def followupUserContext (s : SessionState) (user_input : String) : String :=
  let tech_stack :=
    match s.candidate with
    | some c => c.tech_stack
    | none => "N/A"
  let questions_md :=
    if s.latest_questions = "" then "No questions." else s.latest_questions
  "\nCandidate tech stack: " ++ tech_stack ++
  "\n\nPractice set you already generated:\n\n" ++ questions_md ++
  "\n\nCandidate just asked:\n\n" ++ user_input ++ "\n"

/-- The request built by `answer_followup`. -/
def followupRequest (s : SessionState) (user_input : String) : ChatRequest where
  model := "llama-3.1-8b-instant"
  messages :=
    [⟨"system", followupSystemPrompt⟩,
     ⟨"user", followupUserContext s user_input⟩]
  temperature := (4 : Rat) / 10

/-- The `answer_followup` helper from `app.py`: apology without a client, the
stripped remote text on success, and an error string naming the
exception type on failure.  Also counts network operations. -/
def answer_followup (env : Env) (s : SessionState) (user_input : String) :
    String × Nat :=
  if env.hasClient = false then
    (followupNoClientReply, 0)
  else
    match env.respond (followupRequest s user_input) with
    | .ok text => (pyStrip text, 1)
    | .error ename =>
      ("Something went wrong while generating a response, " ++
       "but you can still use the questions above to practice. " ++
       "(Error: " ++ ename ++ ")", 1)

/-- Which gateway operation the handler invoked for a user action. -/
inductive GatewayCall where
  | generate (tech_stack : String)
  | followup (user_input : String)
deriving DecidableEq, Repr

/-- Outcome of handling one user action: the new session state, the
number of network operations attempted, the gateway operations
invoked, and the validation warning/error surfaced (if any). -/
structure StepResult where
  state : SessionState
  netCalls : Nat
  gwCalls : List GatewayCall
  notice : Option String
deriving Repr

/-- An action that left everything unchanged and surfaced nothing. -/
def noChange (s : SessionState) : StepResult where
  state := s
  netCalls := 0
  gwCalls := []
  notice := none

/-- The required-fields warning of the candidate form. -/
def requiredFieldsWarning : String :=
  "Please fill at least your **name**, a valid **Gmail address**, " ++
  "and your **tech stack**."

/-- The Gmail-domain error of the candidate form. -/
def gmailError : String :=
  "Please enter a valid Gmail address (must end with @gmail.com)."

/-- The phone-number error of the candidate form. -/
def phoneError : String :=
  "Please enter a valid 10-digit phone number (numbers only)."

/-- The tech-stack error of the candidate form. -/
def techStackError : String :=
  "I’m not sure that looks like a tech stack yet. 🤔\n\n" ++
  "Please enter skills like `Python, React, Flutter, NLP, SQL` " ++
  "instead of a random sentence or request."

/-- The validation chain run on a submitted candidate form
(`app.py` lines 426–444): required fields, then Gmail domain, then the
optional 10-digit phone, then tech-stack plausibility.  Returns the
first error message hit, or `none` when the submission is accepted. -/
def validateForm (f : CandidateProfile) : Option String :=
  if f.full_name = "" ∨ f.email = "" ∨ f.tech_stack = "" then
    some requiredFieldsWarning
  else if pyEndsWith (pyLower f.email) "@gmail.com" = false then
    some gmailError
  else if f.phone ≠ "" ∧
      ((f.phone.toList.all Char.isDigit) = false ∨ f.phone.length ≠ 10) then
    some phoneError
  else if looks_like_tech_stack f.tech_stack = false then
    some techStackError
  else
    none

/-- The confirmation appended to the history log on a successful
submission. -/
def submissionHistoryReply (f : CandidateProfile) : String :=
  "Got it, **" ++ f.full_name ++ "**! I’ll generate a practice set based on " ++
  "your tech stack: `" ++ f.tech_stack ++ "`."

/-- Handling of a candidate-form submission (`app.py` lines 424–469).
On a validation failure nothing is committed and the error is
surfaced; on success the candidate dict is stored, a confirmation is
appended to history, questions are generated and stored, and the stage
becomes "questions". -/
def handleSubmit (env : Env) (s : SessionState) (f : CandidateProfile) :
    StepResult :=
  match validateForm f with
  | some e => { noChange s with notice := some e }
  | none =>
    let gen := generate_technical_questions_markdown env f.tech_stack
    { state :=
        { s with
          candidate := some f
          history_messages :=
            s.history_messages ++ [⟨"assistant", submissionHistoryReply f⟩]
          latest_questions := gen.1
          stage := "questions" }
      netCalls := gen.2
      gwCalls := [GatewayCall.generate f.tech_stack]
      notice := none }

/-- The goodbye produced when the input matches an end keyword. -/
def goodbyeReply : String :=
  "You’re welcome! 💫\n\n" ++
  "All the best for your interviews — you’ve got this. 🚀\n" ++
  "Quick tips before you go:\n" ++
  "- Practice answering out loud\n" ++
  "- Time yourself for each question\n" ++
  "- Note down gaps and revise those topics\n\n" ++
  "See you soon, and good luck! 🍀"

/-- The closed-session notice produced at stage "ended". -/
def sessionClosedReply : String :=
  "This session is already wrapped up. Refresh the page if you’d like " ++
  "to start a fresh practice run. 🔁"

/-- The fill-the-form-first reply produced at stage "form". -/
def fillFormFirstReply : String :=
  "First, please fill out the form above so I can understand your profile. " ++
  "Then I’ll generate practice questions for you. 📝"

/-- The out-of-scope deflection produced at stage "questions". -/
def outOfScopeReply : String :=
  "I’m not trained for that yet 🤖\n\n" ++
  "Right now I only know how to help with **interview preparation** – " ++
  "your tech stack, concepts, and how to answer questions.\n\n" ++
  "If you need help, try asking things like:\n" ++
  "- \"Can you explain question 2 in simple words?\"\n" ++
  "- \"How should I structure an answer about OOP?\"\n" ++
  "- \"What topics should I revise for this tech stack?\""

/-- Handling of one chat input (`app.py` lines 488–538).  An empty
input is ignored (`if user_input:`).  Otherwise the user turn is
appended, then: an end keyword produces the goodbye and ends the
session regardless of stage; else the reply is dispatched on the
current stage, calling `answer_followup` only at stage "questions" for
in-scope inputs. -/
def handleChat (env : Env) (s : SessionState) (user_input : String) :
    StepResult :=
  if user_input = "" then
    noChange s
  else
    let s1 := { s with
      chat_messages := s.chat_messages ++ [⟨"user", user_input⟩] }
    if is_end_keyword user_input then
      { noChange
          { s1 with
            chat_messages := s1.chat_messages ++ [⟨"assistant", goodbyeReply⟩]
            stage := "ended" } with
        notice := none }
    else if s1.stage = "ended" then
      noChange
        { s1 with
          chat_messages :=
            s1.chat_messages ++ [⟨"assistant", sessionClosedReply⟩] }
    else if s1.stage = "form" then
      noChange
        { s1 with
          chat_messages :=
            s1.chat_messages ++ [⟨"assistant", fillFormFirstReply⟩] }
    else if s1.stage = "questions" then
      if OUT_OF_SCOPE_KEYWORDS.any (fun k => pyIn k (pyLower user_input)) then
        noChange
          { s1 with
            chat_messages :=
              s1.chat_messages ++ [⟨"assistant", outOfScopeReply⟩] }
      else
        let ans := answer_followup env s1 user_input
        { state :=
            { s1 with
              chat_messages := s1.chat_messages ++ [⟨"assistant", ans.1⟩] }
          netCalls := ans.2
          gwCalls := [GatewayCall.followup user_input]
          notice := none }
    else
      noChange s1

/-- The greeting appended to history when the intro button is first
clicked with an empty history. -/
def introGreeting : String :=
  "Hey there! 👋\n\n" ++
  "I’m your **TalentScout Hiring Assistant**.\n\n" ++
  "Fill out your basic details below, and I’ll generate " ++
  "**practice interview questions** and **mini assignments** " ++
  "tailored to your tech stack."

/-- A user action on the rendered page. -/
inductive UserAction where
  | clickStart
  | clickContact
  | contactSubmit (name email message : String)
  | contactClose
  | submitForm (f : CandidateProfile)
  | chatInput (text : String)
deriving Repr

/-- One render/handle pass for a user action.  The contact overlay
preempts everything else (`st.stop()`); the intro button exists only
on the intro view; the candidate form is rendered only while the stage
is "form" or "questions"; the chat box exists on the chat view.  An
action whose widget is not rendered changes nothing. -/
def step (env : Env) (s : SessionState) (a : UserAction) : StepResult :=
  match a with
  | .clickContact =>
    if s.show_contact = false then
      { noChange s with state := { s with show_contact := true } }
    else
      noChange s
  | .contactSubmit name email message =>
    if s.show_contact then
      if name = "" ∨ email = "" ∨ message = "" then
        noChange s
      else
        { noChange s with state := { s with show_contact := false } }
    else
      noChange s
  | .contactClose =>
    if s.show_contact then
      { noChange s with state := { s with show_contact := false } }
    else
      noChange s
  | .clickStart =>
    if s.show_contact = false ∧ s.view = "intro" then
      let s1 := { s with view := "chat" }
      if s1.history_messages = ([] : List ChatMessage) then
        { noChange
            { s1 with
              history_messages := [⟨"assistant", introGreeting⟩] } with
          notice := none }
      else
        noChange s1
    else
      noChange s
  | .submitForm f =>
    if s.show_contact = false ∧ s.view = "chat" ∧
        (s.stage = "form" ∨ s.stage = "questions") then
      handleSubmit env s f
    else
      noChange s
  | .chatInput text =>
    if s.show_contact = false ∧ s.view = "chat" then
      handleChat env s text
    else
      noChange s

/-- The session states reachable from the initial state by any
sequence of user actions, under any environments. -/
inductive Reachable : SessionState → Prop where
  | init : Reachable initState
  | succ (s : SessionState) (env : Env) (a : UserAction) :
      Reachable s → Reachable (step env s a).state

/-- Environment with no API key configured (`client = None`). -/
def envOffline : Env where
  hasClient := false
  respond := fun _ => Except.error "APIConnectionError"

/-- Environment whose remote completions never contain a `###` marker. -/
def envPlain : Env where
  hasClient := true
  respond := fun _ => Except.ok "Here are some questions for you."

/-- Environment whose remote calls always raise. -/
def envErr : Env where
  hasClient := true
  respond := fun _ => Except.error "APIConnectionError"

/-- A valid candidate form submission (the accepted profile of the
spec's state-machine test). -/
def profileGood : CandidateProfile where
  full_name := "Jane Doe"
  email := "user@gmail.com"
  phone := "1234567890"
  years_experience := 2
  desired_position := "Backend Developer"
  location := "Bengaluru"
  tech_stack := "Java, Docker"

/-- The same submission with a non-Gmail address. -/
def profileYahoo : CandidateProfile :=
  { profileGood with email := "user@yahoo.com" }

/-- A first valid profile. -/
def profileAlice : CandidateProfile where
  full_name := "Alice"
  email := "alice@gmail.com"
  phone := ""
  years_experience := 1
  desired_position := "ML Engineer"
  location := "Pune"
  tech_stack := "Python"

/-- A second, different valid profile. -/
def profileBob : CandidateProfile where
  full_name := "Bob"
  email := "bob@gmail.com"
  phone := "9876543210"
  years_experience := 5
  desired_position := "Android Developer"
  location := "Delhi"
  tech_stack := "Kotlin, Java"

/-- The state after clicking through the intro screen. -/
def chatState : SessionState :=
  (step envOffline initState UserAction.clickStart).state

/-- The state after then typing "bye" into the chat box while the form
was never submitted. -/
def endedNoProfileState : SessionState :=
  (step envOffline chatState (UserAction.chatInput "bye")).state

/-- The state after a first successful submission (Alice's profile). -/
def aliceState : SessionState :=
  (step envOffline chatState (UserAction.submitForm profileAlice)).state

/-- The state after a second successful submission (Bob's profile)
made while the stage is already "questions". -/
def bobState : SessionState :=
  (step envOffline aliceState (UserAction.submitForm profileBob)).state

theorem pyInChars_iff (n h : List Char) : pyInChars n h = true ↔ n <:+: h := by
  induction h with
  | nil =>
    simp [pyInChars, List.isEmpty_iff, List.infix_nil]
  | cons c t ih =>
    simp only [pyInChars, Bool.or_eq_true, ih, List.isPrefixOf_iff_prefix]
    exact ( List.infix_cons_iff).symm

theorem pyIn_iff (n h : String) : pyIn n h = true ↔ n.toList <:+: h.toList := by
  simp [pyIn, pyInChars_iff]

theorem fallback_markdown_ne_empty : _generic_fallback_markdown ≠ "" := by decide

theorem ne_empty_of_pyIn_hash {h : String} (hp : ¬ pyIn "###" h = false) :
    h ≠ "" := by
  intro he
  apply hp
  rw [he]
  decide

theorem generate_fst_ne_empty (env : Env) (t : String) :
    (generate_technical_questions_markdown env t).1 ≠ "" := by
  unfold generate_technical_questions_markdown
  split
  · exact fallback_markdown_ne_empty
  · split
    · exact fallback_markdown_ne_empty
    · dsimp only
      split
      · exact fallback_markdown_ne_empty
      · rename_i hin
        exact ne_empty_of_pyIn_hash hin

theorem handleSubmit_of_some (env : Env) (s : SessionState)
    {f : CandidateProfile} {e : String} (hv : validateForm f = some e) :
    handleSubmit env s f = ⟨s, 0, [], some e⟩ := by
  unfold handleSubmit
  rw [hv]
  rfl

theorem handleSubmit_of_none (env : Env) (s : SessionState)
    {f : CandidateProfile} (hv : validateForm f = none) :
    handleSubmit env s f =
      ⟨{ s with
          candidate := some f
          history_messages :=
            s.history_messages ++ [⟨"assistant", submissionHistoryReply f⟩]
          latest_questions := (generate_technical_questions_markdown env f.tech_stack).1
          stage := "questions" },
        (generate_technical_questions_markdown env f.tech_stack).2,
        [GatewayCall.generate f.tech_stack], none⟩ := by
  unfold handleSubmit
  rw [hv]

theorem handleChat_candidate (env : Env) (s : SessionState) (t : String) :
    (handleChat env s t).state.candidate = s.candidate := by
  unfold handleChat
  split
  · rfl
  · dsimp only
    split
    · rfl
    · split
      · rfl
      · split
        · rfl
        · split
          · split
            · rfl
            · rfl
          · rfl

theorem handleChat_stage (env : Env) (s : SessionState) (t : String) :
    (handleChat env s t).state.stage = s.stage ∨
      (handleChat env s t).state.stage = "ended" := by
  unfold handleChat
  split
  · exact Or.inl rfl
  · dsimp only
    split
    · exact Or.inr rfl
    · split
      · exact Or.inl rfl
      · split
        · exact Or.inl rfl
        · split
          · split
            · exact Or.inl rfl
            · exact Or.inl rfl
          · exact Or.inl rfl

theorem step_cases (env : Env) (s : SessionState) (a : UserAction) :
    ((step env s a).state.candidate = s.candidate ∧
      ((step env s a).state.stage = s.stage ∨
        (step env s a).state.stage = "ended")) ∨
    ∃ f, a = UserAction.submitForm f ∧ validateForm f = none ∧
      (step env s a).state.candidate = some f ∧
      (step env s a).state.stage = "questions" := by
  cases a with
  | clickStart =>
    left
    simp only [step]
    split
    · split
      · exact ⟨rfl, Or.inl rfl⟩
      · exact ⟨rfl, Or.inl rfl⟩
    · exact ⟨rfl, Or.inl rfl⟩
  | clickContact =>
    left
    simp only [step]
    split
    · exact ⟨rfl, Or.inl rfl⟩
    · exact ⟨rfl, Or.inl rfl⟩
  | contactSubmit n e m =>
    left
    simp only [step]
    split
    · split
      · exact ⟨rfl, Or.inl rfl⟩
      · exact ⟨rfl, Or.inl rfl⟩
    · exact ⟨rfl, Or.inl rfl⟩
  | contactClose =>
    left
    simp only [step]
    split
    · exact ⟨rfl, Or.inl rfl⟩
    · exact ⟨rfl, Or.inl rfl⟩
  | chatInput t =>
    simp only [step]
    split
    · exact Or.inl ⟨handleChat_candidate env s t, handleChat_stage env s t⟩
    · exact Or.inl ⟨rfl, Or.inl rfl⟩
  | submitForm f =>
    simp only [step]
    split
    · cases hv : validateForm f with
      | some e =>
        left
        rw [handleSubmit_of_some env s hv]
        exact ⟨rfl, Or.inl rfl⟩
      | none =>
        right
        exact ⟨f, rfl, hv,
          by rw [handleSubmit_of_none env s hv],
          by rw [handleSubmit_of_none env s hv]⟩
    · exact Or.inl ⟨rfl, Or.inl rfl⟩

/-- C1 (amended): in every reachable session state, if the stage is
"questions" then the candidate profile is set.  (The original claim
also covered "ended", which fails: an end-intent chat input at stage
"form" ends the session with the candidate still empty.) -/
theorem C1_questions_requires_candidate (s : SessionState)
    (hr : Reachable s) (hq : s.stage = "questions") : s.candidate ≠ none := by
  induction hr with
  | init => exact absurd hq (by decide)
  | succ s env a _ ih =>
    rcases step_cases env s a with ⟨hc, hs | hs⟩ | ⟨f, -, -, hc, -⟩
    · rw [hc]
      exact ih (hs.symm.trans hq)
    · exact absurd (hs.symm.trans hq) (by decide)
    · rw [hc]
      exact Option.some_ne_none f

/-- C1 counterexample: the state reached by clicking through the intro
and then typing "bye" is reachable, has stage "ended", and still has
no candidate profile — refuting the claimed invariant for "ended". -/
theorem C1_counterexample :
    Reachable endedNoProfileState ∧ endedNoProfileState.stage = "ended" ∧
      endedNoProfileState.candidate = none :=
  ⟨Reachable.succ chatState envOffline (UserAction.chatInput "bye")
      (Reachable.succ initState envOffline UserAction.clickStart Reachable.init),
    by decide, by decide⟩

/-- C1 witness: a reachable state with stage "questions", at which the
amended invariant yields a set candidate. -/
theorem C1_witness :
    aliceState.stage = "questions" ∧ aliceState.candidate ≠ none :=
  ⟨by decide,
    C1_questions_requires_candidate aliceState
      (Reachable.succ chatState envOffline (UserAction.submitForm profileAlice)
        (Reachable.succ initState envOffline UserAction.clickStart Reachable.init))
      (by decide)⟩

/-- C2 (amended): at stage "ended", every non-empty chat input is
answered without any gateway invocation or network operation and the
stage stays "ended"; the fixed "session already wrapped up" notice is
the reply for every input that does not match an end keyword (an
end-intent input instead gets the goodbye message, which is why the
original universal claim fails). -/
theorem C2_ended_no_gateway (env : Env) (s : SessionState) (t : String)
    (hs : s.stage = "ended") (ht : t ≠ "") :
    (handleChat env s t).gwCalls = [] ∧ (handleChat env s t).netCalls = 0 ∧
    (handleChat env s t).state.stage = "ended" ∧
    (is_end_keyword t = false →
      (handleChat env s t).state.chat_messages =
        s.chat_messages ++ [⟨"user", t⟩, ⟨"assistant", sessionClosedReply⟩]) := by
  unfold handleChat
  rw [if_neg ht]
  dsimp only
  by_cases hk : is_end_keyword t = true
  · rw [if_pos hk]
    exact ⟨rfl, rfl, rfl, fun hf => absurd hk (by simp [hf])⟩
  · rw [if_neg hk]
    rw [if_pos hs]
    refine ⟨rfl, rfl, hs, fun _ => ?_⟩
    rw [ List.append_assoc]
    rfl

set_option maxRecDepth 40000 in
/-- C2 counterexample: at an (empty-profile) ended state, the input
"bye" — which contains an end-intent phrase — is answered with the
goodbye message, not the "session already wrapped up" notice. -/
theorem C2_counterexample :
    (handleChat envOffline endedNoProfileState "bye").state.chat_messages =
      endedNoProfileState.chat_messages ++
        [⟨"user", "bye"⟩, ⟨"assistant", goodbyeReply⟩] ∧
    goodbyeReply ≠ sessionClosedReply := by
  constructor
  · decide
  · decide

/-- C2 witness: a concrete non-end-intent input at an ended state. -/
theorem C2_witness :
    (handleChat envOffline endedNoProfileState "ok?").gwCalls = [] ∧
    (handleChat envOffline endedNoProfileState "ok?").netCalls = 0 ∧
    (handleChat envOffline endedNoProfileState "ok?").state.stage = "ended" ∧
    (is_end_keyword "ok?" = false →
      (handleChat envOffline endedNoProfileState "ok?").state.chat_messages =
        endedNoProfileState.chat_messages ++
          [⟨"user", "ok?"⟩, ⟨"assistant", sessionClosedReply⟩]) :=
  C2_ended_no_gateway envOffline endedNoProfileState "ok?" (by decide) (by decide)

/-- C3 (amended): the stored candidate changes only through a form
submission that passes validation, and then to exactly the submitted
fields; chat inputs and failed submissions never change it.  (The
original "immutable after the first successful submission" fails: the
form stays available at stage "questions", so a later successful
submission overwrites the profile.) -/
theorem C3_candidate_written_only_by_valid_submission (env : Env)
    (s : SessionState) (a : UserAction) :
    (step env s a).state.candidate = s.candidate ∨
    ∃ f, a = UserAction.submitForm f ∧ validateForm f = none ∧
      (step env s a).state.candidate = some f := by
  rcases step_cases env s a with ⟨hc, -⟩ | ⟨f, ha, hv, hc, -⟩
  · exact Or.inl hc
  · exact Or.inr ⟨f, ha, hv, hc⟩

set_option maxRecDepth 80000 in
/-- C3 counterexample: after Alice's successful submission the stored
candidate is Alice's profile, but a second successful submission in
the same session (the form is still rendered at stage "questions")
overwrites it with Bob's different profile. -/
theorem C3_counterexample :
    Reachable bobState ∧ aliceState.candidate = some profileAlice ∧
      bobState.candidate = some profileBob ∧ profileBob ≠ profileAlice :=
  ⟨Reachable.succ aliceState envOffline (UserAction.submitForm profileBob)
      (Reachable.succ chatState envOffline (UserAction.submitForm profileAlice)
        (Reachable.succ initState envOffline UserAction.clickStart Reachable.init)),
    by decide, by decide, by decide⟩

/-- C4 (amended): at stage "form", every non-empty chat input that
does not match an end keyword is answered with the static
fill-the-form-first prompt, leaves the whole state otherwise
unchanged, keeps the stage at "form", and performs no gateway or
network call.  (The original claim covered all inputs; it fails for
end-intent inputs, which receive the goodbye and end the session.) -/
theorem C4_form_stage_static_reply (env : Env) (s : SessionState) (t : String)
    (hs : s.stage = "form") (ht : t ≠ "") (hk : is_end_keyword t = false) :
    handleChat env s t =
      ⟨{ s with
          chat_messages :=
            s.chat_messages ++ [⟨"user", t⟩, ⟨"assistant", fillFormFirstReply⟩] },
        0, [], none⟩ := by
  unfold handleChat
  rw [if_neg ht]
  dsimp only
  rw [if_neg (by simp [hk])]
  rw [if_neg (by simp [hs])]
  rw [if_pos hs]
  unfold noChange
  rw [ List.append_assoc]
  rfl

set_option maxRecDepth 40000 in
/-- C4 counterexample: at stage "form", the chat input "bye" is
answered with the goodbye message — not the fill-the-form-first
prompt — and moves the stage to "ended". -/
theorem C4_counterexample :
    chatState.stage = "form" ∧
    (handleChat envOffline chatState "bye").state.chat_messages =
      chatState.chat_messages ++
        [⟨"user", "bye"⟩, ⟨"assistant", goodbyeReply⟩] ∧
    (handleChat envOffline chatState "bye").state.stage = "ended" ∧
    goodbyeReply ≠ fillFormFirstReply := by
  refine ⟨by decide, by decide, by decide, by decide⟩

set_option maxRecDepth 40000 in
/-- C4 witness: a concrete non-end-intent input at the form stage. -/
theorem C4_witness :
    handleChat envOffline chatState "hello" =
      ⟨{ chatState with
          chat_messages :=
            chatState.chat_messages ++
              [⟨"user", "hello"⟩, ⟨"assistant", fillFormFirstReply⟩] },
        0, [], none⟩ :=
  C4_form_stage_static_reply envOffline chatState "hello"
    (by decide) (by decide) (by decide)

/-- C5: a profile submission failing any validation check (missing
required field, non-Gmail address, malformed non-empty phone, or an
implausible tech stack) commits nothing — the session state, and with
it the stage, the candidate, the question set and both logs, is
unchanged — makes no gateway or network call, and surfaces an
error. -/
theorem C5_validation_failure_commits_nothing (env : Env) (s : SessionState)
    (f : CandidateProfile)
    (h : f.full_name = "" ∨ f.email = "" ∨ f.tech_stack = "" ∨
      pyEndsWith (pyLower f.email) "@gmail.com" = false ∨
      (f.phone ≠ "" ∧ ((f.phone.toList.all Char.isDigit) = false ∨
        f.phone.length ≠ 10)) ∨
      looks_like_tech_stack f.tech_stack = false) :
    (handleSubmit env s f).state = s ∧ (handleSubmit env s f).netCalls = 0 ∧
    (handleSubmit env s f).gwCalls = [] ∧
    ∃ e, (handleSubmit env s f).notice = some e := by
  have hv : ∃ e, validateForm f = some e := by
    unfold validateForm
    split
    · exact ⟨_, rfl⟩
    · split
      · exact ⟨_, rfl⟩
      · split
        · exact ⟨_, rfl⟩
        · split
          · exact ⟨_, rfl⟩
          · rename_i h1 h2 h3 h4
            exfalso
            rcases h with h | h | h | h | h | h
            · exact h1 (Or.inl h)
            · exact h1 (Or.inr (Or.inl h))
            · exact h1 (Or.inr (Or.inr h))
            · exact h2 h
            · exact h3 h
            · exact h4 h
  obtain ⟨e, he⟩ := hv
  rw [handleSubmit_of_some env s he]
  exact ⟨rfl, rfl, rfl, e, rfl⟩

/-- C5 witness: the yahoo-address submission is rejected with an error
and commits nothing. -/
theorem C5_witness :
    (handleSubmit envOffline chatState profileYahoo).state = chatState ∧
    (handleSubmit envOffline chatState profileYahoo).netCalls = 0 ∧
    (handleSubmit envOffline chatState profileYahoo).gwCalls = [] ∧
    ∃ e, (handleSubmit envOffline chatState profileYahoo).notice = some e :=
  C5_validation_failure_commits_nothing envOffline chatState profileYahoo
    (Or.inr (Or.inr (Or.inr (Or.inl (by decide)))))

/-- C6: with no API credential configured, question generation returns
the fixed generic fallback markdown and follow-up answering returns
its fixed apology — two distinct strings — and neither attempts any
network operation, for every input. -/
theorem C6_no_credential_short_circuits (env : Env) (s : SessionState)
    (t u : String) (h : env.hasClient = false) :
    generate_technical_questions_markdown env t = (_generic_fallback_markdown, 0) ∧
    answer_followup env s u = (followupNoClientReply, 0) ∧
    followupNoClientReply ≠ _generic_fallback_markdown := by
  refine ⟨?_, ?_, by decide⟩
  · unfold generate_technical_questions_markdown
    rw [if_pos h]
  · unfold answer_followup
    rw [if_pos h]

/-- C6 witness: the no-key environment on concrete inputs. -/
theorem C6_witness :
    generate_technical_questions_markdown envOffline "Python" =
      (_generic_fallback_markdown, 0) ∧
    answer_followup envOffline chatState "Explain question 2" =
      (followupNoClientReply, 0) ∧
    followupNoClientReply ≠ _generic_fallback_markdown :=
  C6_no_credential_short_circuits envOffline chatState "Python"
    "Explain question 2" rfl

/-- C7: with a client configured, a successful generation call whose
stripped response lacks the "###" marker yields exactly the fixed
generic fallback (not the received text), and any raised exception
also yields that same fallback; one network operation is attempted in
both cases. -/
theorem C7_generation_fallback (env : Env) (t : String)
    (hc : env.hasClient = true) :
    (∀ text, env.respond (generationRequest t) = Except.ok text →
      pyIn "###" (pyStrip text) = false →
      generate_technical_questions_markdown env t =
        (_generic_fallback_markdown, 1)) ∧
    (∀ ename, env.respond (generationRequest t) = Except.error ename →
      generate_technical_questions_markdown env t =
        (_generic_fallback_markdown, 1)) := by
  constructor
  · intro text hr hin
    unfold generate_technical_questions_markdown
    rw [if_neg (by simp [hc])]
    rw [hr]
    dsimp only
    rw [if_pos hin]
  · intro ename hr
    unfold generate_technical_questions_markdown
    rw [if_neg (by simp [hc])]
    rw [hr]

/-- C7 witness: a marker-free remote reply and a raising call both
yield the fallback. -/
theorem C7_witness :
    generate_technical_questions_markdown envPlain "Python" =
      (_generic_fallback_markdown, 1) ∧
    generate_technical_questions_markdown envErr "Python" =
      (_generic_fallback_markdown, 1) :=
  ⟨(C7_generation_fallback envPlain "Python" rfl).1
      "Here are some questions for you." rfl (by decide),
    (C7_generation_fallback envErr "Python" rfl).2 "APIConnectionError" rfl⟩

/-- C8: `is_end_keyword` returns true exactly on the strings that
contain one of the end phrases as a substring of their lowercased
form. -/
theorem C8_is_end_keyword_iff (t : String) :
    is_end_keyword t = true ↔
      ∃ k ∈ END_KEYWORDS, k.toList <:+: (pyLower t).toList := by
  simp [is_end_keyword, pyIn_iff]

/-- C9: submitting the profile with email "user@yahoo.com" is rejected
with the Gmail error and changes nothing; submitting the one with
email "user@gmail.com", phone "1234567890" and tech stack
"Java, Docker" is accepted under every environment — the stage becomes
"questions", the candidate record holds the submitted fields, and
`latest_questions` is non-empty. -/
theorem C9_state_machine_examples :
    (∀ env, step env chatState (UserAction.submitForm profileYahoo) =
      ⟨chatState, 0, [], some gmailError⟩) ∧
    (∀ env,
      (step env chatState (UserAction.submitForm profileGood)).state.stage =
        "questions" ∧
      (step env chatState (UserAction.submitForm profileGood)).state.candidate =
        some profileGood ∧
      (step env chatState (UserAction.submitForm profileGood)).state.latest_questions ≠
        "") := by
  constructor
  · intro env
    simp only [step]
    rw [if_pos (by decide)]
    rw [handleSubmit_of_some env chatState
      (show validateForm profileYahoo = some gmailError by decide)]
  · intro env
    simp only [step]
    rw [if_pos (by decide)]
    rw [handleSubmit_of_none env chatState
      (show validateForm profileGood = none by decide)]
    exact ⟨rfl, rfl, generate_fst_ne_empty env profileGood.tech_stack⟩

/-- C10: every non-empty chat input matching an end keyword — at any
stage and under any environment — appends the user turn and the fixed
goodbye to the chat log, sets the stage to "ended", and invokes no
gateway operation and no network call. -/
theorem C10_end_intent_preempts_stage (env : Env) (s : SessionState)
    (t : String) (ht : t ≠ "") (hk : is_end_keyword t = true) :
    handleChat env s t =
      ⟨{ s with
          chat_messages :=
            s.chat_messages ++ [⟨"user", t⟩, ⟨"assistant", goodbyeReply⟩]
          stage := "ended" }, 0, [], none⟩ := by
  unfold handleChat
  rw [if_neg ht]
  dsimp only
  rw [if_pos hk]
  unfold noChange
  rw [ List.append_assoc]
  rfl

set_option maxRecDepth 40000 in
/-- C10 witness: "thank you" typed at the form stage. -/
theorem C10_witness :
    handleChat envOffline chatState "thank you" =
      ⟨{ chatState with
          chat_messages :=
            chatState.chat_messages ++
              [⟨"user", "thank you"⟩, ⟨"assistant", goodbyeReply⟩]
          stage := "ended" }, 0, [], none⟩ :=
  C10_end_intent_preempts_stage envOffline chatState "thank you"
    (by decide) (by decide)
